import Mathlib

/-
Shallow embedding of the threaded callback camera facade
(src/src/threaded.rs) of the nokhwa repository.

The file first embeds the data model (Resolution, FrameFormat,
CameraFormat, Buffer, NokhwaError) and the `CallbackCamera` facade
state, then each facade operation as a pure state-passing function.
The external `Camera` device is a collaborator: its operation results
(capture outcomes, setter outcomes, poisoning of a mutex) are supplied
as oracle parameters to each embedded operation, exactly at the points
where the source performs a device call or a lock acquisition.

The capture worker loop (`camera_frame_thread_loop`,
src/src/threaded.rs:425-442) is embedded as a fuel-indexed run over
schedules: `captures i` is the outcome of the capture attempt of
iteration `i`, `slot i` the identity of the callback installed when
iteration `i` reads the CallbackSlot, and `die i` the value of the
TerminationSignal read by iteration i's end-of-loop check.
-/

namespace Nokhwa

/-- nokhwa_core::types::Resolution: width and height in pixels. -/
structure Resolution where
  width : Nat
  height : Nat
deriving DecidableEq

/-- Display of a Resolution, `"{width}x{height}"`, used for the `value`
field of SetPropertyError as the source's `new_res.to_string()`. -/
def Resolution.display (r : Resolution) : String :=
  toString r.width ++ "x" ++ toString r.height

/-- nokhwa_core::types::FrameFormat (pixel-format tag), abridged to the
variant named in threaded.rs (GRAY, for the initial sentinel) plus
representatives of the others. -/
inductive FrameFormat where
  | MJPEG
  | YUYV
  | NV12
  | GRAY
  | RAWRGB
deriving DecidableEq

/-- nokhwa_core::buffer::Buffer: resolution, raw byte payload, and the
source frame-format tag. A Rust `clone` of a Buffer is an equal value,
so cloning is the identity in this value-level model. -/
structure Buffer where
  resolution : Resolution
  data : List Nat
  source_frame_format : FrameFormat
deriving DecidableEq

/-- Buffer::new_with_vec(res, vec, fmt). -/
def Buffer.new_with_vec (res : Resolution) (d : List Nat) (fmt : FrameFormat) : Buffer :=
  ⟨res, d, fmt⟩

/-- Buffer::new(res, slice, fmt) (copies the slice; same value). -/
def Buffer.new (res : Resolution) (d : List Nat) (fmt : FrameFormat) : Buffer :=
  ⟨res, d, fmt⟩

/-- nokhwa_core::types::CameraFormat: resolution, frame format and
frame rate. `CameraFormat::format()` is the `format` projection. -/
structure CameraFormat where
  resolution : Resolution
  format : FrameFormat
  frame_rate : Nat
deriving DecidableEq

/-- nokhwa_core::error::NokhwaError, restricted to the variants
constructed in threaded.rs. -/
inductive NokhwaError where
  | GetPropertyError (property : String) (error : String)
  | SetPropertyError (property : String) (value : String) (error : String)
  | ReadFrameError (error : String)
  | StreamShutdownError (error : String)
deriving DecidableEq

/-- The external Camera device state visible to this subsystem: whether
its stream is open and its current format. The device's internal driver
logic is out of scope; fallible device calls are modelled by oracle
parameters of type `Except NokhwaError _` at each call site. -/
structure Camera where
  stream_open : Bool
  fmt : CameraFormat
deriving DecidableEq

/-- The CallbackCamera facade state (struct CallbackCamera,
src/src/threaded.rs:59-64). `frame_callback` holds the identity of the
installed callback (a Nat tag; the closure itself is side-effecting and
its identity is all the embedding needs). `worker_spawned` records
whether any background worker thread has been spawned on behalf of this
facade; the source spawns none (no call to `camera_frame_thread_loop`
or to any thread-spawning routine exists in threaded.rs). -/
structure CallbackCamera where
  camera : Camera
  frame_callback : Nat
  last_frame_captured : Buffer
  die_bool : Bool
  worker_spawned : Bool
deriving DecidableEq

/-- The sentinel installed by CallbackCamera::new
(src/src/threaded.rs:79-83): `Buffer::new_with_vec(Resolution::new(0,0),
&vec![], FrameFormat::GRAY)`. -/
def initialSentinel : Buffer :=
  Buffer.new_with_vec ⟨0, 0⟩ [] FrameFormat.GRAY

/-- CallbackCamera::new (src/src/threaded.rs:70-86): builds the facade
with the caller's callback installed, the zero-resolution GRAY sentinel
in the cache, and die_bool false. The constructor body contains no
thread spawn, so `worker_spawned` is false. `fmt` is the format the
device negotiated in `Camera::new`; `cb` the initial callback's
identity. -/
def CallbackCamera.new (fmt : CameraFormat) (cb : Nat) : CallbackCamera :=
  { camera := { stream_open := false, fmt := fmt }
    frame_callback := cb
    last_frame_captured := initialSentinel
    die_bool := false
    worker_spawned := false }

/-- CallbackCamera::open_stream (src/src/threaded.rs:347-356).
`poisonCause` is `some why` when the SharedDevice mutex is poisoned
(mapped to SetPropertyError "camera"/"callback"), `dev` the device's
`open_stream` outcome. No worker is started here: the body is a single
forwarded device call. -/
def CallbackCamera.open_stream (poisonCause : Option String)
    (dev : Except NokhwaError Unit) (s : CallbackCamera) :
    Except NokhwaError Unit × CallbackCamera :=
  match poisonCause with
  | some why => (.error (.SetPropertyError "camera" "callback" why), s)
  | none =>
    match dev with
    | .error e => (.error e, s)
    | .ok () => (.ok (), { s with camera := { s.camera with stream_open := true } })

/-- CallbackCamera::stop_stream (src/src/threaded.rs:410-415): lock the
device (poisoning mapped to StreamShutdownError) and forward
`Camera::stop_stream`. The TerminationSignal `die_bool` is not touched
here. (The source line calls `.stop_stream()` directly on the map_err
result, missing a `?`; the embedding takes the evident propagation.) -/
def CallbackCamera.stop_stream (poisonCause : Option String)
    (dev : Except NokhwaError Unit) (s : CallbackCamera) :
    Except NokhwaError Unit × CallbackCamera :=
  match poisonCause with
  | some why => (.error (.StreamShutdownError why), s)
  | none =>
    match dev with
    | .error e => (.error e, s)
    | .ok () => (.ok (), { s with camera := { s.camera with stream_open := false } })

/-- Drop for CallbackCamera (src/src/threaded.rs:418-423): run
stop_stream, discard its result, then store true into die_bool. -/
def CallbackCamera.drop (poisonCause : Option String)
    (dev : Except NokhwaError Unit) (s : CallbackCamera) : CallbackCamera :=
  let s1 := (CallbackCamera.stop_stream poisonCause dev s).2
  { s1 with die_bool := true }

/-- CallbackCamera::poll_frame (src/src/threaded.rs:376-384): one
device capture on the calling thread (`captureRes` is that single
`frame()` call's outcome; a poisoned device lock is mapped to
ReadFrameError and no capture happens), then on success the cache is
overwritten with a clone of the frame and the frame returned. -/
def CallbackCamera.poll_frame (poisonCause : Option String)
    (captureRes : Except NokhwaError Buffer) (s : CallbackCamera) :
    Except NokhwaError Buffer × CallbackCamera :=
  match poisonCause with
  | some why => (.error (.ReadFrameError why), s)
  | none =>
    match captureRes with
    | .error e => (.error e, s)
    | .ok frame => (.ok frame, { s with last_frame_captured := frame })

/-- CallbackCamera::last_frame (src/src/threaded.rs:386-393): returns a
clone of the cache contents (an equal, independent value). -/
def CallbackCamera.last_frame (s : CallbackCamera) : Buffer :=
  s.last_frame_captured

/-- CallbackCamera::set_resolution (src/src/threaded.rs:168-179). Rust
evaluates an assignment's right operand first, so
`self.camera_format()?` (outcome `camFmtRes`; its device lock is
released inside that call) runs before the cache lock is taken: if it
fails, the function returns early and the cache is untouched. Otherwise
the sentinel `Buffer::new_with_vec(new_res, Vec::default(), fmt.format())`
is stored into the cache; only then is the device locked again
(poisoning mapped to SetPropertyError "Resolution") and
`Camera::set_resolution` (outcome `devSet`) invoked. A device failure
does not restore the cache. -/
def CallbackCamera.set_resolution (camFmtRes : Except NokhwaError CameraFormat)
    (poisonCause : Option String) (devSet : Except NokhwaError Unit)
    (s : CallbackCamera) (new_res : Resolution) :
    Except NokhwaError Unit × CallbackCamera :=
  match camFmtRes with
  | .error e => (.error e, s)
  | .ok fmt =>
    let s1 := { s with
      last_frame_captured := Buffer.new_with_vec new_res [] fmt.format }
    match poisonCause with
    | some why =>
      (.error (.SetPropertyError "Resolution" new_res.display why), s1)
    | none =>
      match devSet with
      | .error e => (.error e, s1)
      | .ok () =>
        (.ok (), { s1 with camera := { s1.camera with
          fmt := { s1.camera.fmt with resolution := new_res } } })

/-- CallbackCamera::set_camera_format (src/src/threaded.rs:129-133).
As in set_resolution, the assignment's right operand runs first:
`self.camera_format()?` (outcome `camFmtRes`) queries the device format
BEFORE the new format is installed, so the sentinel stored in the cache
is tagged with the OLD frame format. The source writes
`Buffer::new(new_res, ...)` with `new_res` unbound in this function (the
file does not compile as written); the only in-scope candidate for the
sentinel's resolution is the new format's, which the embedding uses.
Then `Camera::set_camera_format(new_fmt)` (outcome `devSet`) is invoked
on the device with no poison handling on that second lock. -/
def CallbackCamera.set_camera_format (camFmtRes : Except NokhwaError CameraFormat)
    (devSet : Except NokhwaError Unit) (s : CallbackCamera)
    (new_fmt : CameraFormat) : Except NokhwaError Unit × CallbackCamera :=
  match camFmtRes with
  | .error e => (.error e, s)
  | .ok old =>
    let s1 := { s with
      last_frame_captured := Buffer.new new_fmt.resolution [] old.format }
    match devSet with
    | .error e => (.error e, s1)
    | .ok () => (.ok (), { s1 with camera := { s1.camera with fmt := new_fmt } })

/-! ### The capture worker loop (camera_frame_thread_loop) -/

/-- The observable events of one worker iteration, in program order
(camera_frame_thread_loop, src/src/threaded.rs:431-441): on a
successful capture, first the cache store `*last_frame_captured.lock()
= img.clone()`, then the callback invocation `cb(img)` with an equal
value of the same frame. -/
inductive WorkerEvent where
  | cacheWrite (b : Buffer)
  | callbackInvoke (cb : Nat) (b : Buffer)
deriving DecidableEq

/-- The ordered events of one iteration of the worker loop given the
callback identity `cb` read from the CallbackSlot and the capture
attempt's outcome: on `some b` (capture Ok) the cache write strictly
precedes the callback invocation, both with the frame `b`; on `none`
(capture failed) neither the cache nor the callback is touched. -/
def workerIterationEvents (cb : Nat) (capture : Option Buffer) : List WorkerEvent :=
  match capture with
  | some b => [.cacheWrite b, .callbackInvoke cb b]
  | none => []

/-- The worker loop run from iteration `i` with `fuel` iterations of
budget: each iteration performs its capture attempt (events as in
`workerIterationEvents`), then reads die_bool (`die i`); if true the
loop breaks, otherwise it continues with iteration `i+1`. The result
lists each performed iteration's index with its events. Matching the
source, the die_bool check comes after the capture block, and the
decision to continue does not depend on capture success or failure. -/
def workerRunFrom (captures : Nat → Option Buffer) (slot : Nat → Nat)
    (die : Nat → Bool) : Nat → Nat → List (Nat × List WorkerEvent)
  | _, 0 => []
  | i, fuel + 1 =>
    let evs := workerIterationEvents (slot i) (captures i)
    if die i then [(i, evs)]
    else (i, evs) :: workerRunFrom captures slot die (i + 1) fuel

/-! ### The LastFrameCache write trace -/

/-- The operations of this subsystem that touch the LastFrameCache, as
they occur in some interleaved execution (each is a single critical
section on the cache lock):
* `workerCapture b` — a worker iteration captured `b` and stored
  `img.clone()` (src/src/threaded.rs:433);
* `pollFrameOk b` / `pollFrameErr` — a poll_frame call whose capture
  succeeded with `b` (cache := clone) or failed (cache untouched)
  (src/src/threaded.rs:376-384);
* `setResolutionSentinel r fmt` — set_resolution stored the sentinel
  `Buffer::new_with_vec(new_res, Vec::default(), fmt)` where `fmt` is
  the camera format queried at that moment (src/src/threaded.rs:169-170);
* `setCameraFormatSentinel new_fmt old_fmt` — set_camera_format stored
  its sentinel, tagged with the format queried before the change
  (src/src/threaded.rs:130-131). -/
inductive CacheOp where
  | workerCapture (b : Buffer)
  | pollFrameOk (b : Buffer)
  | pollFrameErr
  | setResolutionSentinel (r : Resolution) (fmt : FrameFormat)
  | setCameraFormatSentinel (new_fmt : CameraFormat) (old_fmt : FrameFormat)
deriving DecidableEq

/-- Effect of one cache-touching operation on the cache contents. -/
def cacheStep (cache : Buffer) : CacheOp → Buffer
  | .workerCapture b => b
  | .pollFrameOk b => b
  | .pollFrameErr => cache
  | .setResolutionSentinel r fmt => Buffer.new_with_vec r [] fmt
  | .setCameraFormatSentinel new_fmt old_fmt =>
      Buffer.new new_fmt.resolution [] old_fmt

/-- Cache contents after a trace of cache-touching operations, starting
from the constructor's sentinel. -/
def cacheAfter (ops : List CacheOp) : Buffer :=
  ops.foldl cacheStep initialSentinel

/-- The frames actually produced by capture calls in a trace (worker
captures and successful poll_frame calls), in order. -/
def capturedFrames (ops : List CacheOp) : List Buffer :=
  ops.filterMap fun op =>
    match op with
    | .workerCapture b => some b
    | .pollFrameOk b => some b
    | _ => none

/-! ### The CallbackSlot critical sections -/

/-- Critical sections on the CallbackSlot mutex, in the order the lock
was acquired. `swapCallback cb` is a set_callback call installing `cb`
(src/src/threaded.rs:359-371); `invokeCallback` is a worker iteration
reading the slot and invoking the held callback — the source invokes
`cb(img)` while the slot's guard (a temporary of the surrounding if-let
scrutinee) is still alive, so the read and the invocation form one
critical section and every invocation uses exactly the callback
installed when its lock was acquired. -/
inductive SlotEvent where
  | swapCallback (cb : Nat)
  | invokeCallback
deriving DecidableEq

/-- The callback installed in the slot after a list of critical
sections, starting from `init`. -/
def slotAfter (init : Nat) (evs : List SlotEvent) : Nat :=
  evs.foldl (fun s e => match e with
    | .swapCallback cb => cb
    | .invokeCallback => s) init

/-- The callback identities used by the invocations in `evs`, in order,
when `init` is installed at the start. -/
def invokedCallbacks (init : Nat) : List SlotEvent → List Nat
  | [] => []
  | .swapCallback cb :: rest => invokedCallbacks cb rest
  | .invokeCallback :: rest => init :: invokedCallbacks init rest

/-! ### Held-lock sets

Each operation of the subsystem is abstracted to the sequence of
sets of locks it holds, one entry per program point where it performs
work under locks, derived from the MutexGuard lifetimes in the source
(Rust 2021 temporary scopes). Key facts used:
* an assignment's right operand is evaluated before its left, so the
  `self.camera_format()?` call inside the right-hand side of the cache
  assignments of set_resolution / set_camera_format acquires and
  releases the device lock before the cache lock is taken;
* a guard created in a `let` statement's initializer is dropped at the
  end of that statement (poll_frame holds the device lock only for the
  capture, then the cache lock only for the store);
* a guard created in an if-let scrutinee lives to the end of the whole
  if-let, so the worker's device guard (from `camera.lock()` in
  `if let Ok(img) = camera.lock().fr`, src/src/threaded.rs:432) is
  still held during the cache store and the callback invocation. -/

inductive LockId where
  | sharedDevice
  | lastFrameCache
  | callbackSlot
deriving DecidableEq

/-- Lock sets of a successful worker iteration: capture under the
device lock; cache store with the device guard still alive; callback
invocation with the device guard still alive (the cache guard is
dropped at the end of its statement, before the slot lock is taken). -/
def workerSuccessLockSets : List (List LockId) :=
  [[.sharedDevice],
   [.sharedDevice, .lastFrameCache],
   [.sharedDevice, .callbackSlot]]

/-- Lock sets of a failed worker iteration: only the capture attempt
under the device lock. -/
def workerFailureLockSets : List (List LockId) :=
  [[.sharedDevice]]

/-- Lock sets of poll_frame: capture under the device lock (guard
dropped at end of the let statement), then the cache store. -/
def pollFrameLockSets : List (List LockId) :=
  [[.sharedDevice], [.lastFrameCache]]

/-- Lock sets of set_resolution: the rhs `camera_format()` call under
the device lock, then the sentinel store under the cache lock, then the
device setter under the device lock. -/
def setResolutionLockSets : List (List LockId) :=
  [[.sharedDevice], [.lastFrameCache], [.sharedDevice]]

/-- Lock sets of set_camera_format (same shape as set_resolution). -/
def setCameraFormatLockSets : List (List LockId) :=
  [[.sharedDevice], [.lastFrameCache], [.sharedDevice]]

/-- Lock sets of last_frame: one read under the cache lock. -/
def lastFrameLockSets : List (List LockId) :=
  [[.lastFrameCache]]

/-- Lock sets of set_callback: one store under the slot lock. -/
def setCallbackLockSets : List (List LockId) :=
  [[.callbackSlot]]

/-- Lock sets of every single-forwarded-call facade operation (index,
set_index, backend, set_backend, info, camera_format, the compatibility
queries, frame rate / frame format get and set, camera controls,
open_stream, is_stream_open, stop_stream): one device call under the
device lock. -/
def passthroughLockSets : List (List LockId) :=
  [[.sharedDevice]]

/-- Every execution context of the subsystem paired with its held-lock
sets. -/
def subsystemLockSets : List (String × List (List LockId)) :=
  [("worker_iteration_success", workerSuccessLockSets),
   ("worker_iteration_failure", workerFailureLockSets),
   ("poll_frame", pollFrameLockSets),
   ("set_resolution", setResolutionLockSets),
   ("set_camera_format", setCameraFormatLockSets),
   ("last_frame", lastFrameLockSets),
   ("set_callback", setCallbackLockSets),
   ("passthrough_device_call", passthroughLockSets)]

/-- The facade-side contexts (everything except the worker loop). -/
def facadeLockSets : List (String × List (List LockId)) :=
  [("poll_frame", pollFrameLockSets),
   ("set_resolution", setResolutionLockSets),
   ("set_camera_format", setCameraFormatLockSets),
   ("last_frame", lastFrameLockSets),
   ("set_callback", setCallbackLockSets),
   ("passthrough_device_call", passthroughLockSets)]

/-! ### Poison handling of the SharedDevice lock, per operation

Each control-surface operation is abstracted to what it does when its
SharedDevice lock acquisition is reached: given whether the mutex is
poisoned and the poison's cause string, either the operation proceeds
(`ok`), or it returns a typed NokhwaError built from the cause
(`typedErr e`, the source's `.map_err(|why| ...)?` pattern), or the
source simply calls through the lock result with no error path at all
(`noPoisonHandling` — e.g. `self.camera.lock().index()`,
src/src/threaded.rs:91, where no `map_err` appears and the function's
return type has no error case). -/

inductive OpOutcome where
  | ok
  | typedErr (e : NokhwaError)
  | noPoisonHandling
deriving DecidableEq

/-- True exactly when the outcome is a typed error returned to the
caller. -/
def OpOutcome.isTypedErr : OpOutcome → Bool
  | .typedErr _ => true
  | _ => false

/-- index (src/src/threaded.rs:90-92): `self.camera.lock().index()`,
no map_err, return type `usize`. -/
def index_onLock (poisoned : Bool) (_cause : String) : OpOutcome :=
  match poisoned with
  | true => .noPoisonHandling
  | false => .ok

/-- set_index (src/src/threaded.rs:97-99): no map_err. -/
def set_index_onLock (poisoned : Bool) (_cause : String) : OpOutcome :=
  match poisoned with
  | true => .noPoisonHandling
  | false => .ok

/-- backend (src/src/threaded.rs:103-105): no map_err. -/
def backend_onLock (poisoned : Bool) (_cause : String) : OpOutcome :=
  match poisoned with
  | true => .noPoisonHandling
  | false => .ok

/-- set_backend (src/src/threaded.rs:110-112): no map_err. -/
def set_backend_onLock (poisoned : Bool) (_cause : String) : OpOutcome :=
  match poisoned with
  | true => .noPoisonHandling
  | false => .ok

/-- info (src/src/threaded.rs:116-118): no map_err. -/
def info_onLock (poisoned : Bool) (_cause : String) : OpOutcome :=
  match poisoned with
  | true => .noPoisonHandling
  | false => .ok

/-- camera_format (src/src/threaded.rs:121-123): no map_err. -/
def camera_format_onLock (poisoned : Bool) (_cause : String) : OpOutcome :=
  match poisoned with
  | true => .noPoisonHandling
  | false => .ok

/-- set_camera_format (src/src/threaded.rs:129-133): neither of its two
device lock acquisitions has a map_err. -/
def set_camera_format_onLock (poisoned : Bool) (_cause : String) : OpOutcome :=
  match poisoned with
  | true => .noPoisonHandling
  | false => .ok

/-- compatible_list_by_resolution (src/src/threaded.rs:138-143): no
map_err. -/
def compatible_list_by_resolution_onLock (poisoned : Bool) (_cause : String) :
    OpOutcome :=
  match poisoned with
  | true => .noPoisonHandling
  | false => .ok

/-- compatible_fourcc (src/src/threaded.rs:148-150): no map_err. -/
def compatible_fourcc_onLock (poisoned : Bool) (_cause : String) : OpOutcome :=
  match poisoned with
  | true => .noPoisonHandling
  | false => .ok

/-- resolution (src/src/threaded.rs:153-162): poisoning mapped to
GetPropertyError "Resolution". -/
def resolution_onLock (poisoned : Bool) (cause : String) : OpOutcome :=
  match poisoned with
  | true => .typedErr (.GetPropertyError "Resolution" cause)
  | false => .ok

/-- set_resolution (src/src/threaded.rs:168-179): poisoning mapped to
SetPropertyError "Resolution" with the requested value's display. -/
def set_resolution_onLock (new_res : Resolution) (poisoned : Bool)
    (cause : String) : OpOutcome :=
  match poisoned with
  | true => .typedErr (.SetPropertyError "Resolution" new_res.display cause)
  | false => .ok

/-- frame_rate (src/src/threaded.rs:182-191): GetPropertyError
"Framerate". -/
def frame_rate_onLock (poisoned : Bool) (cause : String) : OpOutcome :=
  match poisoned with
  | true => .typedErr (.GetPropertyError "Framerate" cause)
  | false => .ok

/-- set_frame_rate (src/src/threaded.rs:197-206): SetPropertyError
"Framerate". -/
def set_frame_rate_onLock (new_fps : Nat) (poisoned : Bool) (cause : String) :
    OpOutcome :=
  match poisoned with
  | true => .typedErr (.SetPropertyError "Framerate" (toString new_fps) cause)
  | false => .ok

/-- frame_format (src/src/threaded.rs:209-218): GetPropertyError
"Frameformat". -/
def frame_format_onLock (poisoned : Bool) (cause : String) : OpOutcome :=
  match poisoned with
  | true => .typedErr (.GetPropertyError "Frameformat" cause)
  | false => .ok

/-- set_frame_format (src/src/threaded.rs:224-233): SetPropertyError
with property string "Framerate" exactly as in the source (line 228). -/
def set_frame_format_onLock (fourcc : String) (poisoned : Bool)
    (cause : String) : OpOutcome :=
  match poisoned with
  | true => .typedErr (.SetPropertyError "Framerate" fourcc cause)
  | false => .ok

/-- supported_camera_controls (src/src/threaded.rs:238-246): poisoning
mapped to GetPropertyError "Supported Camera Controls" (the source then
chains the device call on the map_err result, missing a `?`; the
map_err is what this abstraction records). -/
def supported_camera_controls_onLock (poisoned : Bool) (cause : String) :
    OpOutcome :=
  match poisoned with
  | true => .typedErr (.GetPropertyError "Supported Camera Controls" cause)
  | false => .ok

/-- camera_control (src/src/threaded.rs:309-320): GetPropertyError
"Camera Control". -/
def camera_control_onLock (poisoned : Bool) (cause : String) : OpOutcome :=
  match poisoned with
  | true => .typedErr (.GetPropertyError "Camera Control" cause)
  | false => .ok

/-- set_camera_control (src/src/threaded.rs:328-341): SetPropertyError
"Camera Control" with value `format!("{}: {}", id, control)`. -/
def set_camera_control_onLock (idAndValue : String) (poisoned : Bool)
    (cause : String) : OpOutcome :=
  match poisoned with
  | true => .typedErr (.SetPropertyError "Camera Control" idAndValue cause)
  | false => .ok

/-- open_stream (src/src/threaded.rs:347-356): SetPropertyError
"camera"/"callback". -/
def open_stream_onLock (poisoned : Bool) (cause : String) : OpOutcome :=
  match poisoned with
  | true => .typedErr (.SetPropertyError "camera" "callback" cause)
  | false => .ok

/-- poll_frame (src/src/threaded.rs:376-384): ReadFrameError. -/
def poll_frame_onLock (poisoned : Bool) (cause : String) : OpOutcome :=
  match poisoned with
  | true => .typedErr (.ReadFrameError cause)
  | false => .ok

/-- is_stream_open (src/src/threaded.rs:397-405): poisoning mapped to
GetPropertyError "is stream open" (the source then applies `?` inside a
`-> bool` function; the map_err is what this abstraction records). -/
def is_stream_open_onLock (poisoned : Bool) (cause : String) : OpOutcome :=
  match poisoned with
  | true => .typedErr (.GetPropertyError "is stream open" cause)
  | false => .ok

/-- stop_stream (src/src/threaded.rs:410-415): StreamShutdownError. -/
def stop_stream_onLock (poisoned : Bool) (cause : String) : OpOutcome :=
  match poisoned with
  | true => .typedErr (.StreamShutdownError cause)
  | false => .ok

/-- Every control-surface operation that acquires the SharedDevice
lock, paired with its behaviour at that acquisition (set_resolution,
set_frame_rate, set_frame_format and set_camera_control applied to
representative requested values). -/
def controlSurfaceOps : List (String × (Bool → String → OpOutcome)) :=
  [("index", index_onLock),
   ("set_index", set_index_onLock),
   ("backend", backend_onLock),
   ("set_backend", set_backend_onLock),
   ("info", info_onLock),
   ("camera_format", camera_format_onLock),
   ("set_camera_format", set_camera_format_onLock),
   ("compatible_list_by_resolution", compatible_list_by_resolution_onLock),
   ("compatible_fourcc", compatible_fourcc_onLock),
   ("resolution", resolution_onLock),
   ("set_resolution", set_resolution_onLock ⟨640, 480⟩),
   ("frame_rate", frame_rate_onLock),
   ("set_frame_rate", set_frame_rate_onLock 30),
   ("frame_format", frame_format_onLock),
   ("set_frame_format", set_frame_format_onLock "YUYV"),
   ("supported_camera_controls", supported_camera_controls_onLock),
   ("camera_control", camera_control_onLock),
   ("set_camera_control", set_camera_control_onLock "Brightness: 1"),
   ("open_stream", open_stream_onLock),
   ("poll_frame", poll_frame_onLock),
   ("is_stream_open", is_stream_open_onLock),
   ("stop_stream", stop_stream_onLock)]

/-! ## Theorems -/

/-- Helper: when the TerminationSignal is first observed true at
iteration `t` (within the fuel budget), the worker loop started at `i`
performs exactly the iterations `i, i+1, ..., t` and then exits. -/
theorem workerRunFrom_eq_range (captures : Nat → Option Buffer)
    (slot : Nat → Nat) (die : Nat → Bool) (i fuel t : Nat)
    (h1 : ∀ j, i ≤ j → j < t → die j = false) (h2 : die t = true)
    (h3 : i ≤ t) (h4 : t < i + fuel) :
    workerRunFrom captures slot die i fuel =
      (List.range' i (t - i + 1)).map
        (fun k => (k, workerIterationEvents (slot k) (captures k))) := by
  induction fuel generalizing i with
  | zero => omega
  | succ fuel ih =>
    by_cases hd : die i = true
    · have hit : i = t := by
        rcases Nat.lt_or_ge i t with h | h
        · rw [h1 i le_rfl h] at hd; exact absurd hd (by simp)
        · omega
      subst hit
      simp [workerRunFrom, hd, List.range'_succ]
    · have hif : die i = false := by
        cases hdi : die i
        · rfl
        · exact absurd hdi hd
      have hlt : i < t := by
        rcases Nat.lt_or_ge i t with h | h
        · exact h
        · have : i = t := by omega
          rw [this, h2] at hif
          exact absurd hif (by simp)
      have hrec := ih (i + 1) (fun j hj1 hj2 => h1 j (by omega) hj2)
        (by omega) (by omega)
      have hsub : t - i + 1 = (t - (i + 1) + 1) + 1 := by omega
      simp only [workerRunFrom, hif]
      rw [hsub, List.range'_succ, List.map_cons]
      simp [hrec]

/-- Helper: in the list of iterations `0..t`, exactly one (iteration
`t` itself) has index at or after `t`. -/
theorem filter_map_range_atOrAfter (t : Nat)
    (f : Nat → Nat × List WorkerEvent) (hf : ∀ k, (f k).1 = k) :
    ((List.range (t + 1)).map f).filter (fun p => decide (t ≤ p.1)) = [f t] := by
  rw [List.range_succ, List.map_append, List.filter_append]
  have h1 : ((List.range t).map f).filter (fun p => decide (t ≤ p.1)) = [] := by
    apply List.filter_eq_nil_iff.mpr
    intro a ha
    simp only [List.mem_map, List.mem_range] at ha
    obtain ⟨j, hj, rfl⟩ := ha
    simp only [hf j]
    simpa using by omega
  rw [h1]
  simp [hf t]

/-- C1 (amended): `stop_stream` closes the device stream but leaves the
TerminationSignal `die_bool` unchanged; the signal is set true only by
the facade's Drop (which runs after its stop_stream call); and once the
worker's die_bool check first reads true at iteration `t`, the worker
performs exactly iterations `0..t` and exits — so at most one
capture-and-callback cycle happens at or after the signal point. -/
theorem stop_stream_drop_and_worker_exit
    (s : CallbackCamera) (captures : Nat → Option Buffer)
    (slot : Nat → Nat) (die : Nat → Bool) (t fuel : Nat)
    (h1 : ∀ j, j < t → die j = false) (h2 : die t = true) (h3 : t < fuel) :
    (CallbackCamera.stop_stream none (.ok ()) s).1 = .ok () ∧
    ((CallbackCamera.stop_stream none (.ok ()) s).2).camera.stream_open = false ∧
    ((CallbackCamera.stop_stream none (.ok ()) s).2).die_bool = s.die_bool ∧
    (∀ p dev, (CallbackCamera.drop p dev s).die_bool = true) ∧
    workerRunFrom captures slot die 0 fuel =
      (List.range (t + 1)).map
        (fun k => (k, workerIterationEvents (slot k) (captures k))) ∧
    ((workerRunFrom captures slot die 0 fuel).filter
        (fun p => decide (t ≤ p.1))).length ≤ 1 := by
  have hrun := workerRunFrom_eq_range captures slot die 0 fuel t
    (fun j _ hj => h1 j hj) h2 (Nat.zero_le t) (by omega)
  have hrange : List.range' 0 (t - 0 + 1) = List.range (t + 1) := by
    rw [List.range_eq_range']
    simp
  rw [hrange] at hrun
  refine ⟨rfl, rfl, rfl, fun p dev => rfl, hrun, ?_⟩
  rw [hrun, filter_map_range_atOrAfter t _ (fun k => rfl)]
  simp

/-- C1 witness: the worker-exit bound instantiated at a concrete
schedule whose die_bool check first reads true at iteration 2. -/
theorem stop_stream_drop_and_worker_exit_witness :
    ((workerRunFrom (fun _ => none) (fun _ => 0)
        (fun i => decide (2 ≤ i)) 0 5).filter
      (fun p => decide (2 ≤ p.1))).length ≤ 1 :=
  (stop_stream_drop_and_worker_exit
    (CallbackCamera.new ⟨⟨640, 480⟩, .YUYV, 30⟩ 0)
    (fun _ => none) (fun _ => 0) (fun i => decide (2 ≤ i)) 2 5
    (by decide) (by decide) (by decide)).2.2.2.2.2

/-- C1 counterexample: at a concrete streaming facade, `stop_stream`
returns Ok yet die_bool is still false afterwards, refuting the claim
that a successful stop_stream leaves the TerminationSignal set true. -/
theorem stop_stream_leaves_die_bool_false_cex :
    (CallbackCamera.stop_stream none (.ok ())
        (CallbackCamera.open_stream none (.ok ())
          (CallbackCamera.new ⟨⟨640, 480⟩, .YUYV, 30⟩ 0)).2).1 = .ok () ∧
    ((CallbackCamera.stop_stream none (.ok ())
        (CallbackCamera.open_stream none (.ok ())
          (CallbackCamera.new ⟨⟨640, 480⟩, .YUYV, 30⟩ 0)).2).2).die_bool = false :=
  ⟨rfl, rfl⟩

/-- C2 (code bug): neither the constructor nor a successful open_stream
spawns the background capture worker — threaded.rs defines
`camera_frame_thread_loop` but never calls it, and contains no
thread-spawning call, so after both operations succeed no worker
executes the capture loop for this facade. -/
theorem new_open_stream_spawn_no_worker :
    (CallbackCamera.new ⟨⟨640, 480⟩, .YUYV, 30⟩ 7).worker_spawned = false ∧
    (CallbackCamera.open_stream none (.ok ())
      (CallbackCamera.new ⟨⟨640, 480⟩, .YUYV, 30⟩ 7)).1 = .ok () ∧
    ((CallbackCamera.open_stream none (.ok ())
      (CallbackCamera.new ⟨⟨640, 480⟩, .YUYV, 30⟩ 7)).2).worker_spawned = false :=
  ⟨rfl, rfl, rfl⟩

/-- C3: in a worker iteration a successful capture emits exactly the
cache write followed (strictly after) by the callback invocation, both
carrying the same frame value; a failed capture emits neither, and
whenever die_bool reads false the loop goes on to the next iteration
regardless of the capture outcome. -/
theorem worker_iteration_cache_then_callback
    (cb : Nat) (b : Buffer) (captures : Nat → Option Buffer)
    (slot : Nat → Nat) (die : Nat → Bool) (i fuel : Nat)
    (hdie : die i = false) :
    workerIterationEvents cb (some b) =
      [WorkerEvent.cacheWrite b, WorkerEvent.callbackInvoke cb b] ∧
    workerIterationEvents cb none = [] ∧
    workerRunFrom captures slot die i (fuel + 1) =
      (i, workerIterationEvents (slot i) (captures i)) ::
        workerRunFrom captures slot die (i + 1) fuel := by
  refine ⟨rfl, rfl, ?_⟩
  simp [workerRunFrom, hdie]

/-- C3 witness: the iteration shape at a concrete schedule whose
iteration 0 fails its capture with die_bool false. -/
theorem worker_iteration_cache_then_callback_witness :
    workerIterationEvents 3 (some (Buffer.new_with_vec ⟨2, 2⟩ [9] .YUYV)) =
      [WorkerEvent.cacheWrite (Buffer.new_with_vec ⟨2, 2⟩ [9] .YUYV),
       WorkerEvent.callbackInvoke 3 (Buffer.new_with_vec ⟨2, 2⟩ [9] .YUYV)] ∧
    workerIterationEvents 3 none = [] ∧
    workerRunFrom (fun _ => none) (fun _ => 3) (fun _ => false) 0 (1 + 1) =
      (0, workerIterationEvents 3 (none : Option Buffer)) ::
        workerRunFrom (fun _ => none) (fun _ => 3) (fun _ => false) (0 + 1) 1 :=
  worker_iteration_cache_then_callback 3 (Buffer.new_with_vec ⟨2, 2⟩ [9] .YUYV)
    (fun _ => none) (fun _ => 3) (fun _ => false) 0 1 rfl

/-- Helper: folding the cache steps from any starting value either
yields an empty-payload buffer, or a frame captured in the trace, or
the starting value itself. -/
theorem cacheFold_cases :
    ∀ (ops : List CacheOp) (c : Buffer),
      (ops.foldl cacheStep c).data = [] ∨
      ops.foldl cacheStep c ∈ capturedFrames ops ∨
      ops.foldl cacheStep c = c := by
  intro ops
  induction ops with
  | nil => intro c; right; right; rfl
  | cons op rest ih =>
    intro c
    have hfold : (op :: rest).foldl cacheStep c = rest.foldl cacheStep (cacheStep c op) :=
      rfl
    have hmem : ∀ x, x ∈ capturedFrames rest → x ∈ capturedFrames (op :: rest) := by
      intro x hx
      cases op <;>
        simp only [capturedFrames, List.filterMap_cons] at hx ⊢ <;>
        first
          | exact List.mem_cons_of_mem _ hx
          | exact hx
    rcases ih (cacheStep c op) with h | h | h
    · left; rw [hfold]; exact h
    · right; left; rw [hfold]; exact hmem _ h
    · rw [hfold, h]
      cases op with
      | workerCapture b =>
        right; left
        simp [capturedFrames, List.filterMap_cons, cacheStep]
      | pollFrameOk b =>
        right; left
        simp [capturedFrames, List.filterMap_cons, cacheStep]
      | pollFrameErr => right; right; rfl
      | setResolutionSentinel r fmt => left; rfl
      | setCameraFormatSentinel nf of => left; rfl

/-- C4 (amended): last_frame returns exactly the cache contents (an
independent equal snapshot, never torn — every cache store is a full
critical section), and in every trace of cache-touching operations the
cache is either a sentinel-shaped empty buffer (the constructor's
zero-resolution sentinel or one installed by a resolution/format
change) or equal to some frame actually produced by a capture call (by
the worker or by poll_frame). -/
theorem last_frame_sentinel_or_captured (ops : List CacheOp) (s : CallbackCamera) :
    CallbackCamera.last_frame s = s.last_frame_captured ∧
    ((cacheAfter ops).data = [] ∨ cacheAfter ops ∈ capturedFrames ops) := by
  refine ⟨rfl, ?_⟩
  rcases cacheFold_cases ops initialSentinel with h | h | h
  · left; exact h
  · right; exact h
  · left
    have hc : cacheAfter ops = initialSentinel := h
    rw [hc]
    rfl

/-- C4 counterexample: after a successful capture followed by a
successful set_resolution, the cache holds the new-resolution sentinel
— neither the initial zero-resolution sentinel nor any frame produced
by a capture call, refuting the claim's dichotomy as stated. -/
theorem last_frame_neither_initial_nor_captured_cex :
    ¬ (cacheAfter
          [CacheOp.workerCapture (Buffer.new_with_vec ⟨640, 480⟩ [1, 2, 3] .YUYV),
           CacheOp.setResolutionSentinel ⟨320, 240⟩ .YUYV] = initialSentinel ∨
       cacheAfter
          [CacheOp.workerCapture (Buffer.new_with_vec ⟨640, 480⟩ [1, 2, 3] .YUYV),
           CacheOp.setResolutionSentinel ⟨320, 240⟩ .YUYV] ∈
         capturedFrames
          [CacheOp.workerCapture (Buffer.new_with_vec ⟨640, 480⟩ [1, 2, 3] .YUYV),
           CacheOp.setResolutionSentinel ⟨320, 240⟩ .YUYV]) := by
  decide

/-- C5 (code bug): evaluating set_camera_format at a camera currently
in RAWRGB with a requested YUYV format: the call succeeds but the cache
sentinel is tagged RAWRGB — the format queried before the change — not
the new YUYV (and the source line even references an unbound `new_res`
for the sentinel's resolution). -/
theorem set_camera_format_sentinel_keeps_old_tag :
    (CallbackCamera.set_camera_format (.ok ⟨⟨640, 480⟩, .RAWRGB, 30⟩) (.ok ())
        (CallbackCamera.new ⟨⟨640, 480⟩, .RAWRGB, 30⟩ 0)
        ⟨⟨320, 240⟩, .YUYV, 30⟩).1 = .ok () ∧
    ((CallbackCamera.set_camera_format (.ok ⟨⟨640, 480⟩, .RAWRGB, 30⟩) (.ok ())
        (CallbackCamera.new ⟨⟨640, 480⟩, .RAWRGB, 30⟩ 0)
        ⟨⟨320, 240⟩, .YUYV, 30⟩).2).last_frame_captured =
      Buffer.new ⟨320, 240⟩ [] .RAWRGB ∧
    ((CallbackCamera.set_camera_format (.ok ⟨⟨640, 480⟩, .RAWRGB, 30⟩) (.ok ())
        (CallbackCamera.new ⟨⟨640, 480⟩, .RAWRGB, 30⟩ 0)
        ⟨⟨320, 240⟩, .YUYV, 30⟩).2).last_frame_captured.source_frame_format ≠
      FrameFormat.YUYV :=
  ⟨rfl, rfl, by decide⟩

/-- C6 counterexample: `index` is a control-surface accessor on the
enumerated list whose SharedDevice lock acquisition has no poison
handling at all (`self.camera.lock().index()`, no map_err and no error
return type), refuting the claim that every such operation returns a
typed get/set error on a poisoned lock. -/
theorem poisoned_lock_not_always_typed_error_cex :
    ¬ ∀ p ∈ controlSurfaceOps, ∀ cause : String,
        (p.2 true cause).isTypedErr = true := by
  intro h
  have hmem : ("index", index_onLock) ∈ controlSurfaceOps := by
    unfold controlSurfaceOps
    exact List.Mem.head _
  have := h ("index", index_onLock) hmem "a prior panic poisoned the lock"
  simp [index_onLock, OpOutcome.isTypedErr] at this

/-- C6 (amended): the resolution, frame-rate and frame-format getters
and setters, the camera-control operations, open_stream,
is_stream_open, poll_frame and stop_stream map a poisoned SharedDevice
lock to a typed NokhwaError carrying the cause string (with the
property strings the source uses, including set_frame_format's
"Framerate"); index, set_index, backend, set_backend, info,
camera_format, set_camera_format and the two compatibility queries
have no poison-handling path at all. -/
theorem poisoned_lock_handling_by_operation (cause : String)
    (new_res : Resolution) (new_fps : Nat) (fourcc idv : String) :
    resolution_onLock true cause =
      .typedErr (.GetPropertyError "Resolution" cause) ∧
    set_resolution_onLock new_res true cause =
      .typedErr (.SetPropertyError "Resolution" new_res.display cause) ∧
    frame_rate_onLock true cause =
      .typedErr (.GetPropertyError "Framerate" cause) ∧
    set_frame_rate_onLock new_fps true cause =
      .typedErr (.SetPropertyError "Framerate" (toString new_fps) cause) ∧
    frame_format_onLock true cause =
      .typedErr (.GetPropertyError "Frameformat" cause) ∧
    set_frame_format_onLock fourcc true cause =
      .typedErr (.SetPropertyError "Framerate" fourcc cause) ∧
    supported_camera_controls_onLock true cause =
      .typedErr (.GetPropertyError "Supported Camera Controls" cause) ∧
    camera_control_onLock true cause =
      .typedErr (.GetPropertyError "Camera Control" cause) ∧
    set_camera_control_onLock idv true cause =
      .typedErr (.SetPropertyError "Camera Control" idv cause) ∧
    open_stream_onLock true cause =
      .typedErr (.SetPropertyError "camera" "callback" cause) ∧
    poll_frame_onLock true cause = .typedErr (.ReadFrameError cause) ∧
    is_stream_open_onLock true cause =
      .typedErr (.GetPropertyError "is stream open" cause) ∧
    stop_stream_onLock true cause = .typedErr (.StreamShutdownError cause) ∧
    index_onLock true cause = .noPoisonHandling ∧
    set_index_onLock true cause = .noPoisonHandling ∧
    backend_onLock true cause = .noPoisonHandling ∧
    set_backend_onLock true cause = .noPoisonHandling ∧
    info_onLock true cause = .noPoisonHandling ∧
    camera_format_onLock true cause = .noPoisonHandling ∧
    set_camera_format_onLock true cause = .noPoisonHandling ∧
    compatible_list_by_resolution_onLock true cause = .noPoisonHandling ∧
    compatible_fourcc_onLock true cause = .noPoisonHandling :=
  ⟨rfl, rfl, rfl, rfl, rfl, rfl, rfl, rfl, rfl, rfl, rfl,
   rfl, rfl, rfl, rfl, rfl, rfl, rfl, rfl, rfl, rfl, rfl⟩

/-- Helper: invocations over an appended trace split at the slot value
reached after the first part. -/
theorem invokedCallbacks_append (init : Nat) (xs ys : List SlotEvent) :
    invokedCallbacks init (xs ++ ys) =
      invokedCallbacks init xs ++ invokedCallbacks (slotAfter init xs) ys := by
  induction xs generalizing init with
  | nil => simp [invokedCallbacks, slotAfter]
  | cons e rest ih =>
    cases e <;> simp [invokedCallbacks, slotAfter, ih]

/-- Helper: with no swap in the trace, every invocation uses the
callback installed at its start. -/
theorem invokedCallbacks_no_swap (s : Nat) (evs : List SlotEvent)
    (h : ∀ cb, SlotEvent.swapCallback cb ∉ evs) :
    ∀ c ∈ invokedCallbacks s evs, c = s := by
  induction evs with
  | nil => simp [invokedCallbacks]
  | cons e rest ih =>
    cases e with
    | swapCallback cb => exact absurd (List.mem_cons_self _ _) (h cb)
    | invokeCallback =>
      intro c hc
      simp only [invokedCallbacks, List.mem_cons] at hc
      rcases hc with rfl | hc
      · rfl
      · exact ih (fun cb hm => h cb (List.mem_cons_of_mem _ hm)) c hc

/-- C7: in the serialized order of CallbackSlot critical sections (the
swap of set_callback and the worker's read-and-invoke are each one
critical section under the same mutex, so they never interleave), after
a set_callback(cb2) section every later invocation — absent further
swaps — uses exactly cb2; in particular the previously installed cb1 ≠
cb2 is never invoked after the swap, and no invocation mixes old and
new. -/
theorem set_callback_excludes_old_callback
    (init cb1 cb2 : Nat) (pre post : List SlotEvent)
    (hpost : ∀ cb, SlotEvent.swapCallback cb ∉ post) (hne : cb1 ≠ cb2) :
    invokedCallbacks init (pre ++ SlotEvent.swapCallback cb2 :: post) =
      invokedCallbacks init pre ++ invokedCallbacks cb2 post ∧
    (∀ c ∈ invokedCallbacks cb2 post, c = cb2) ∧
    cb1 ∉ invokedCallbacks cb2 post := by
  have happ := invokedCallbacks_append init pre (SlotEvent.swapCallback cb2 :: post)
  have hstep : invokedCallbacks (slotAfter init pre)
      (SlotEvent.swapCallback cb2 :: post) = invokedCallbacks cb2 post := rfl
  refine ⟨by rw [happ, hstep], invokedCallbacks_no_swap cb2 post hpost, ?_⟩
  intro hmemb
  exact hne (invokedCallbacks_no_swap cb2 post hpost cb1 hmemb)

/-- C7 witness: an invocation, then a swap from callback 1 to callback
2, then another invocation: the second invocation uses callback 2 and
callback 1 is never invoked after the swap. -/
theorem set_callback_excludes_old_callback_witness :
    invokedCallbacks 1
        ([SlotEvent.invokeCallback] ++
          SlotEvent.swapCallback 2 :: [SlotEvent.invokeCallback]) =
      invokedCallbacks 1 [SlotEvent.invokeCallback] ++
        invokedCallbacks 2 [SlotEvent.invokeCallback] ∧
    (∀ c ∈ invokedCallbacks 2 [SlotEvent.invokeCallback], c = 2) ∧
    1 ∉ invokedCallbacks 2 [SlotEvent.invokeCallback] :=
  set_callback_excludes_old_callback 1 1 2
    [SlotEvent.invokeCallback] [SlotEvent.invokeCallback]
    (by intro cb h; simp at h) (by decide)

/-- C8 counterexample: it is not the case that every execution context
of the subsystem holds at most one of the three locks at every step:
the worker's successful iteration holds the SharedDevice lock together
with the LastFrameCache lock (and then with the CallbackSlot lock),
because the device guard created in the if-let scrutinee lives through
the whole body. -/
theorem two_locks_held_in_worker_cex :
    ¬ ∀ ctx ∈ subsystemLockSets, ∀ step ∈ ctx.2, step.length ≤ 1 := by
  decide

/-- C8 (amended): every facade-side operation holds at most one lock at
any step (in set_resolution / set_camera_format the device lock taken
inside the assignment's right-hand side is released before the cache
lock is taken), and the cache lock and the callback-slot lock are never
held together anywhere; but the worker's successful iteration holds the
SharedDevice lock simultaneously with the cache lock and then with the
slot lock. -/
theorem lock_discipline_amended :
    (facadeLockSets.all fun ctx =>
      ctx.2.all fun step => decide (step.length ≤ 1)) = true ∧
    (subsystemLockSets.all fun ctx =>
      ctx.2.all fun step =>
        !(decide (LockId.lastFrameCache ∈ step) &&
          decide (LockId.callbackSlot ∈ step))) = true ∧
    decide ([LockId.sharedDevice, LockId.lastFrameCache] ∈
      workerSuccessLockSets) = true ∧
    decide ([LockId.sharedDevice, LockId.callbackSlot] ∈
      workerSuccessLockSets) = true := by
  decide

/-- C9: poll_frame performs its single capture on the calling thread
(the one device `frame()` call, made under the device lock); on success
the captured frame is stored into the cache and returned, so last_frame
immediately afterwards equals the returned value; on failure the
capture's error is returned to the caller and the state is untouched. -/
theorem poll_frame_capture_cache_return
    (s : CallbackCamera) (frame : Buffer) (e : NokhwaError) :
    CallbackCamera.poll_frame none (.ok frame) s =
      (.ok frame, { s with last_frame_captured := frame }) ∧
    CallbackCamera.last_frame
      (CallbackCamera.poll_frame none (.ok frame) s).2 = frame ∧
    CallbackCamera.poll_frame none (.error e) s = (.error e, s) :=
  ⟨rfl, rfl, rfl⟩

/-- C10: set_resolution and set_camera_format overwrite the cache with
their sentinel before the device setter runs and do not roll back: when
the device rejects the new value the call returns the error yet the
cache already holds the sentinel (the previously cached frame is
discarded); in contrast a failed poll_frame leaves the whole state, the
cache included, unchanged. -/
theorem setters_discard_cache_on_device_error
    (s : CallbackCamera) (fmt old_fmt : CameraFormat) (e : NokhwaError)
    (new_res : Resolution) (new_fmt : CameraFormat) :
    (CallbackCamera.set_resolution (.ok fmt) none (.error e) s new_res).1 =
      .error e ∧
    ((CallbackCamera.set_resolution (.ok fmt) none (.error e) s
        new_res).2).last_frame_captured =
      Buffer.new_with_vec new_res [] fmt.format ∧
    (CallbackCamera.set_camera_format (.ok old_fmt) (.error e) s new_fmt).1 =
      .error e ∧
    ((CallbackCamera.set_camera_format (.ok old_fmt) (.error e) s
        new_fmt).2).last_frame_captured =
      Buffer.new new_fmt.resolution [] old_fmt.format ∧
    (CallbackCamera.poll_frame none (.error e) s).2 = s :=
  ⟨rfl, rfl, rfl, rfl, rfl⟩

end Nokhwa
